import Mathlib

/-
Verification of the tiered historical-metrics resolution engine of the
portfolio_explain repository, embedded shallowly from
src/historical_analyzer.py (class EnhancedHistoricalAnalyzer) and
src/app.py.

Modelling conventions.
Prices are rational numbers; a pandas price series after dropna is a
List of rationals in time order. Python float arithmetic is modelled by
exact rational arithmetic. Library square roots and real powers do not
exist on rationals, so every formatted value carries the exact numbers
the source feeds into the final Python format string; the FmtStr
constructors record both the numbers and which format string the source
applies. File reads, the yfinance network fetch and the system clock
are modelled by an explicit environment record Env. Exceptions in the
source are modelled by the value the enclosing handler returns: every
tier helper returns an Option, a None standing for the caught-and-logged
failure paths.
-/

/-- Formatted string value as produced by the metric calculations of
EnhancedHistoricalAnalyzer. Each constructor records the exact numbers
fed into the Python format string it denotes:
retPct x denotes the one-decimal percentage rendering of x * 100;
annPct t y denotes the one-decimal percentage rendering of
100 * ((1 + t) ** (1 / y) - 1), the annualized-return expression of
_safe_return_calc for horizons above one year;
stdPct v denotes the one-decimal percentage rendering of
sqrt v * 252 ** 0.5 * 100, where v is the variance whose square root the
source takes (pandas std), as in _safe_volatility_calc;
sharpeOf e v denotes the two-decimal rendering of
e / (sqrt v * 252 ** 0.5), as in _safe_sharpe_calc;
rawPct x denotes the one-decimal rendering of x followed by a percent
sign, for values already scaled to percent;
lit s is a string used verbatim (fallback constants and defaults).
A rendered numeric format always consists of digits, at most one minus
sign, a decimal point and possibly a percent sign, so it is never equal
to the sentinel string N/A; only lit can produce that sentinel. -/
inductive FmtStr where
  | retPct (x : ℚ)
  | annPct (t : ℚ) (y : ℚ)
  | stdPct (v : ℚ)
  | sharpeOf (e : ℚ) (v : ℚ)
  | rawPct (x : ℚ)
  | lit (s : String)
deriving DecidableEq, Repr

/-- Test whether a formatted value renders as the sentinel string N/A.
The numeric renderings never do (see the FmtStr documentation), so only
a verbatim literal can. This models the Python comparisons of rendered
strings against the literal N/A. -/
def FmtStr.isNA : FmtStr → Bool
  | .lit s => s == "N/A"
  | _ => false

/-- Mapping historical_returns of a MetricsRecord; the Python dict keys
1_month, 3_months, 6_months, 1_year, 5_years_avg, 10_years_avg. -/
structure HistoricalReturns where
  one_month : FmtStr
  three_months : FmtStr
  six_months : FmtStr
  one_year : FmtStr
  five_years_avg : FmtStr
  ten_years_avg : FmtStr
deriving DecidableEq, Repr

/-- Mapping risk_metrics of a MetricsRecord. -/
structure RiskMetrics where
  volatility : FmtStr
  max_drawdown : FmtStr
  sharpe_ratio : FmtStr
  var_95 : FmtStr
deriving DecidableEq, Repr

/-- Mapping current_stats of a MetricsRecord. -/
structure CurrentStats where
  current_price : ℚ
  sma_50 : ℚ
  sma_200 : ℚ
  avg_annual_return : FmtStr
deriving DecidableEq, Repr

/-- Mapping data_quality of a MetricsRecord, present only on records
computed from a real price series. The fields data_start and data_end of
the source are strings derived from the series index, which this price
model does not carry, so they are omitted here; no claim mentions them. -/
structure DataQuality where
  data_points : ℕ
  years_of_data : ℚ
  completeness : ℚ
deriving DecidableEq, Repr

/-- Canonical output unit of the analyzer, one per asset. last_update
and data_source are optional because a cache entry read back from disk
is an arbitrary persisted dictionary that may lack either key; every
record built by the analyzer itself sets both. -/
structure MetricsRecord where
  asset_name : String
  current_price : ℚ
  last_update : Option String
  data_source : Option String
  historical_returns : HistoricalReturns
  risk_metrics : RiskMetrics
  current_stats : CurrentStats
  data_quality : Option DataQuality
deriving DecidableEq, Repr

/-- Arithmetic mean of a list of rationals (pandas mean). On the empty
list this gives 0 by the division-by-zero convention of Lean; every use
in the source is guarded by a minimum-length check. -/
def listMean (xs : List ℚ) : ℚ := xs.sum / (xs.length : ℚ)

/-- Sample variance with the Bessel correction, divisor n - 1: the
square of the pandas Series.std default (ddof = 1). -/
def sampleVar (xs : List ℚ) : ℚ :=
  let m := listMean xs
  (xs.map (fun x => (x - m) ^ 2)).sum / ((xs.length : ℚ) - 1)

/-- Population variance, divisor n. Used only by the spec-worded
volatility definition below, for comparison against the source. -/
def popVar (xs : List ℚ) : ℚ :=
  let m := listMean xs
  (xs.map (fun x => (x - m) ^ 2)).sum / (xs.length : ℚ)

/-- Daily percentage returns: pandas pct_change().dropna() on a clean
series, pairing each element with its predecessor. -/
def pctChange (prices : List ℚ) : List ℚ :=
  List.zipWith (fun a b => b / a - 1) prices prices.tail

/-- Helper for runningMax: walks the list keeping the maximum seen. -/
def runningMaxAux : ℚ → List ℚ → List ℚ
  | _, [] => []
  | cur, h :: t => max cur h :: runningMaxAux (max cur h) t

/-- Running maximum of a series: pandas expanding().max(). -/
def runningMax (xs : List ℚ) : List ℚ :=
  match xs with
  | [] => []
  | h :: _ => runningMaxAux h xs

/-- Minimum of a list with a default for the empty list (pandas min on
a series; the empty case is unreachable under the length guards). -/
def listMinD (xs : List ℚ) (d : ℚ) : ℚ :=
  match xs with
  | [] => d
  | h :: t => t.foldl min h

/-- Linear-interpolation 5 percent quantile of a list, the pandas
Series.quantile(0.05) default method: sort, take the fractional
position 0.05 * (n - 1) and interpolate between its neighbours. -/
def quantile05 (xs : List ℚ) : ℚ :=
  let s := List.insertionSort (· ≤ ·) xs
  let n := s.length
  let h : ℚ := (5 / 100) * ((n : ℚ) - 1)
  let lo : ℕ := h.floor.toNat
  let x0 := s.getD lo 0
  let x1 := s.getD (lo + 1) 0
  x0 + (h - (lo : ℚ)) * (x1 - x0)

/-- Embedding of EnhancedHistoricalAnalyzer._safe_return_calc. For a
series long enough (at least max(days + 1, 30) points) it reads the
price days points before the last one and the last price, reporting the
raw period return for horizons up to a year and the annualized return
beyond; for 10 to that many points it extrapolates the average daily
return over the available span to the horizon, dampened for horizons
beyond 30 days and clamped to the interval from -0.80 to 2.0; otherwise
it returns the fallback string verbatim. The except branch of the source
is unreachable under exact rational arithmetic. -/
def safe_return_calc (prices : List ℚ) (days : ℕ) (fallback : String) : FmtStr :=
  if prices.length < max (days + 1) 30 then
    if 10 ≤ prices.length then
      let total_return := prices.getLastD 0 / prices.headD 0 - 1
      let available_days : ℕ := prices.length - 1
      if 0 < available_days then
        let daily_return := total_return / (available_days : ℚ)
        let dampening_factor : ℚ := if 30 < days then min 1 (30 / (days : ℚ)) else 1
        let estimated_return := daily_return * (days : ℚ) * dampening_factor
        .retPct (max (-(80 / 100)) (min 2 estimated_return))
      else .lit fallback
    else .lit fallback
  else
    let start_price := prices.getD (prices.length - 1 - days) 0
    let end_price := prices.getLastD 0
    if days ≤ 252 then
      .retPct (end_price / start_price - 1)
    else
      .annPct (end_price / start_price - 1) ((days : ℚ) / 252)

/-- Embedding of EnhancedHistoricalAnalyzer._safe_volatility_calc:
below 30 price points or 20 return points the fallback string, else the
pandas sample standard deviation (ddof = 1) of the daily percentage
returns annualized by the square root of 252, as a one-decimal
percentage (stdPct carries the variance whose root is taken). -/
def safe_volatility_calc (prices : List ℚ) (fallback : String) : FmtStr :=
  if prices.length < 30 then .lit fallback
  else
    let daily_returns := pctChange prices
    if daily_returns.length < 20 then .lit fallback
    else .stdPct (sampleVar daily_returns)

/-- Definition worded after the spec for comparison with the source:
identical to safe_volatility_calc except that the standard deviation is
the population one (divisor n, no Bessel correction), as section 4.2 of
the spec words it. -/
def volatility_spec (prices : List ℚ) (fallback : String) : FmtStr :=
  if prices.length < 30 then .lit fallback
  else
    let daily_returns := pctChange prices
    if daily_returns.length < 20 then .lit fallback
    else .stdPct (popVar daily_returns)

/-- Embedding of EnhancedHistoricalAnalyzer._safe_drawdown_calc. -/
def safe_drawdown_calc (prices : List ℚ) (fallback : String) : FmtStr :=
  if prices.length < 30 then .lit fallback
  else
    let rolling_max := runningMax prices
    let drawdown := List.zipWith (fun p m => (p - m) / m * 100) prices rolling_max
    .rawPct (listMinD drawdown 0)

/-- Embedding of EnhancedHistoricalAnalyzer._safe_sharpe_calc with the
source default risk_free_rate of 0.06 passed explicitly by every
caller. The source tests annualized volatility against zero; over the
reals that product is zero exactly when the variance is zero, which is
the test used here. -/
def safe_sharpe_calc (prices : List ℚ) (fallback : String) (risk_free_rate : ℚ) : FmtStr :=
  if prices.length < 100 then .lit fallback
  else
    let daily_returns := pctChange prices
    if daily_returns.length < 50 then .lit fallback
    else
      let excess_returns := listMean daily_returns * 252 - risk_free_rate
      let v := sampleVar daily_returns
      if v = 0 then .lit fallback
      else .sharpeOf excess_returns v

/-- Embedding of EnhancedHistoricalAnalyzer._safe_var_calc. -/
def safe_var_calc (prices : List ℚ) (fallback : String) : FmtStr :=
  if prices.length < 30 then .lit fallback
  else
    let daily_returns := pctChange prices
    if daily_returns.length < 20 then .lit fallback
    else .rawPct (quantile05 daily_returns * 100)

/-- Embedding of EnhancedHistoricalAnalyzer._safe_sma_calc: the trailing
simple moving average over the window when the series is long enough,
else the latest price; on the empty series the except branch of the
source yields 0.0. -/
def safe_sma_calc (prices : List ℚ) (period : ℕ) : ℚ :=
  if prices.length = 0 then 0
  else if period ≤ prices.length then listMean (prices.drop (prices.length - period))
  else prices.getLastD 0

/-- Static per-asset default row of
EnhancedHistoricalAnalyzer._generate_complete_default_metrics. -/
structure DefaultRow where
  current_price : ℚ
  one_month : String
  three_months : String
  six_months : String
  one_year : String
  five_years_avg : String
  ten_years_avg : String
  volatility : String
  max_drawdown : String
  sharpe_ratio : String
  var_95 : String
deriving DecidableEq, Repr

/-- Embedding of the asset_defaults dictionary lookup
asset_defaults.get(asset_name, asset_defaults of Equities). -/
def asset_defaults (asset_name : String) : DefaultRow :=
  if asset_name = "Equities" then
    ⟨25000, "2.1%", "5.2%", "8.5%", "15.0%", "12.0%", "11.0%",
     "18.0%", "-22.0%", "0.95", "-2.1%"⟩
  else if asset_name = "Gold" then
    ⟨65000, "1.5%", "4.2%", "12.5%", "8.0%", "10.0%", "8.5%",
     "15.0%", "-18.0%", "1.05", "-1.8%"⟩
  else if asset_name = "Bitcoin" then
    ⟨4500000, "-5.2%", "15.8%", "45.2%", "45.0%", "80.0%", "120.0%",
     "65.0%", "-75.0%", "0.85", "-4.8%"⟩
  else if asset_name = "REITs" then
    ⟨180, "1.8%", "4.5%", "8.2%", "12.0%", "15.0%", "13.5%",
     "22.0%", "-28.0%", "0.88", "-2.8%"⟩
  else
    ⟨25000, "2.1%", "5.2%", "8.5%", "15.0%", "12.0%", "11.0%",
     "18.0%", "-22.0%", "0.95", "-2.1%"⟩

/-- Embedding of
EnhancedHistoricalAnalyzer._generate_complete_default_metrics: the
static table row wrapped into a full MetricsRecord tagged
complete_defaults, with sma_50 and sma_200 scaled off the default price
and avg_annual_return copied from the five-year default. The argument
nowIso models datetime.now().isoformat(). -/
def generate_complete_default_metrics (nowIso : String) (asset_name : String) : MetricsRecord :=
  let d := asset_defaults asset_name
  { asset_name := asset_name
    current_price := d.current_price
    last_update := some nowIso
    data_source := some "complete_defaults"
    historical_returns :=
      ⟨.lit d.one_month, .lit d.three_months, .lit d.six_months,
       .lit d.one_year, .lit d.five_years_avg, .lit d.ten_years_avg⟩
    risk_metrics :=
      ⟨.lit d.volatility, .lit d.max_drawdown, .lit d.sharpe_ratio, .lit d.var_95⟩
    current_stats :=
      ⟨d.current_price, d.current_price * 0.98, d.current_price * 0.95,
       .lit d.five_years_avg⟩
    data_quality := none }

/-- Embedding of
EnhancedHistoricalAnalyzer._calculate_complete_metrics_from_prices. On
the empty series the source raises on prices.iloc[-1], the enclosing
handler catches and returns the complete defaults; that is the only
exceptional path under exact rational arithmetic, and it is modelled by
the explicit emptiness test. Otherwise every metric is computed through
the safe calculators with the fixed fallback constants of the source,
and avg_annual takes the five-year return unless it rendered as the
sentinel, falling back to the one-year return and then to a constant. -/
def calculate_complete_metrics_from_prices (nowIso : String) (prices : List ℚ)
    (asset_name : String) (data_source : String) : MetricsRecord :=
  if prices.length = 0 then generate_complete_default_metrics nowIso asset_name
  else
    let current_price := prices.getLastD 0
    let returns_1m := safe_return_calc prices 21 "1.5%"
    let returns_3m := safe_return_calc prices 63 "4.2%"
    let returns_6m := safe_return_calc prices 126 "8.5%"
    let returns_1y := safe_return_calc prices 252 "12.0%"
    let returns_5y := safe_return_calc prices (252 * 5) "10.0%"
    let returns_10y := safe_return_calc prices (252 * 10) "9.0%"
    let volatility := safe_volatility_calc prices "18.0%"
    let max_drawdown := safe_drawdown_calc prices "-22.0%"
    let sharpe_ratio := safe_sharpe_calc prices "0.85" 0.06
    let var_95 := safe_var_calc prices "-2.3%"
    let sma_50 := safe_sma_calc prices 50
    let sma_200 := safe_sma_calc prices 200
    let avg_annual :=
      if returns_5y.isNA then (if returns_1y.isNA then .lit "10.0%" else returns_1y)
      else returns_5y
    { asset_name := asset_name
      current_price := current_price
      last_update := some nowIso
      data_source := some data_source
      historical_returns :=
        ⟨returns_1m, returns_3m, returns_6m, returns_1y, returns_5y, returns_10y⟩
      risk_metrics := ⟨volatility, max_drawdown, sharpe_ratio, var_95⟩
      current_stats := ⟨current_price, sma_50, sma_200, avg_annual⟩
      data_quality :=
        some ⟨prices.length, (prices.length : ℚ) / 252,
              min ((prices.length : ℚ) / (252 * 10)) 1⟩ }

/-- Environment of one resolution call: the three physical data tiers
and the clock, the parts of the world the analyzer reads. csv models
reading the primary CSV and selecting one asset column after dropna
(none when the file is missing, the column is absent or the read
raises); cached models reading and JSON-parsing the per-asset cache
file (none when absent or unparseable); live models the yfinance fetch
and its Close-column dropna (none when every window attempt fails or
comes back empty); nowIso and nowSec are datetime.now() as an ISO
string and as seconds; parseIso models datetime.fromisoformat as
seconds (none when it raises). -/
structure Env where
  csv : String → Option (List ℚ)
  cached : String → Option MetricsRecord
  live : String → Option (List ℚ)
  nowIso : String
  nowSec : ℚ
  parseIso : String → Option ℚ

/-- Embedding of EnhancedHistoricalAnalyzer._get_csv_data: none when
the file or the column is unavailable or the selected series is empty,
else the complete metrics computed from the series tagged csv_primary. -/
def get_csv_data (env : Env) (asset : String) : Option MetricsRecord :=
  match env.csv asset with
  | none => none
  | some prices =>
      if prices.length = 0 then none
      else some (calculate_complete_metrics_from_prices env.nowIso prices asset "csv_primary")

/-- Timestamp normalization inside
EnhancedHistoricalAnalyzer._is_data_fresh: every Z is removed from the
stored timestamp, then anything from the first plus sign on is dropped. -/
def stripTimestampSuffix (s : String) : String :=
  let s1 := s.replace "Z" ""
  if s1.contains (Char.ofNat 43) then (s1.splitOn "+").headD s1 else s1

/-- Embedding of EnhancedHistoricalAnalyzer._is_data_fresh: a record is
fresh when its last_update field is present, parses after timestamp
normalization, and lies strictly less than max_age_hours hours before
now; a missing or unparseable timestamp is stale. The source default
for max_age_hours is 24 and no caller overrides it. -/
def is_data_fresh (env : Env) (data : MetricsRecord) (max_age_hours : ℚ) : Bool :=
  match data.last_update with
  | none => false
  | some s =>
      match env.parseIso (stripTimestampSuffix s) with
      | none => false
      | some update_time => decide (env.nowSec - update_time < max_age_hours * 3600)

/-- Symbol map of EnhancedHistoricalAnalyzer._fetch_live_data. -/
def symbol_map (asset : String) : Option String :=
  if asset = "Equities" then some "^NSEI"
  else if asset = "Gold" then some "GC=F"
  else if asset = "Bitcoin" then some "BTC-USD"
  else if asset = "REITs" then some "MINDSPACE.NS"
  else none

/-- Embedding of EnhancedHistoricalAnalyzer._fetch_live_data: none when
the asset has no symbol mapping or the provider yields nothing usable
across the attempted windows, else complete metrics computed from the
fetched close series tagged live_yfinance_last_resort. -/
def fetch_live_data (env : Env) (asset : String) : Option MetricsRecord :=
  match symbol_map asset with
  | none => none
  | some _ =>
      match env.live asset with
      | none => none
      | some prices =>
          some (calculate_complete_metrics_from_prices env.nowIso prices asset
                  "live_yfinance_last_resort")

/-- Embedding of EnhancedHistoricalAnalyzer._ensure_data_source: the
data_source field is backfilled with the given default only when it is
absent; an existing value is kept. -/
def ensure_data_source (data : MetricsRecord) (default_source : String) : MetricsRecord :=
  match data.data_source with
  | none => { data with data_source := some default_source }
  | some _ => data

/-- Fixed asset list iterated by calculate_all_metrics. -/
def assets : List String := ["Equities", "Gold", "Bitcoin", "REITs"]

/-- Live-fetch leg of the per-asset loop of calculate_all_metrics
(priorities 3 and 4): the resulting record paired with the cache write
the loop performs, none when nothing is written. The source tags the
fetched dictionary in place before writing it back, so the written
entry is the tagged one. -/
def resolve_live (env : Env) (asset : String) : MetricsRecord × Option MetricsRecord :=
  match fetch_live_data env asset with
  | some live_data =>
      let tagged := ensure_data_source live_data "live_yfinance"
      (tagged, some tagged)
  | none => (generate_complete_default_metrics env.nowIso asset, none)

/-- Per-asset body of the loop of
EnhancedHistoricalAnalyzer.calculate_all_metrics, in priority order:
CSV, then fresh cache (tag backfilled with cached_data when absent),
then live fetch (with cache write-back), then complete defaults. The
second component is the cache write performed, if any. -/
def resolveAsset (env : Env) (asset : String) : MetricsRecord × Option MetricsRecord :=
  match get_csv_data env asset with
  | some csv_data => (csv_data, none)
  | none =>
      match env.cached asset with
      | some cached_data =>
          if is_data_fresh env cached_data 24 then
            (ensure_data_source cached_data "cached_data", none)
          else resolve_live env asset
      | none => resolve_live env asset

/-- Embedding of EnhancedHistoricalAnalyzer.calculate_all_metrics: the
per-asset results over the fixed asset list, in iteration order. The
portfolios argument of the source is never read by the body; it is kept
in the signature with the dictionary type of the Python annotation. -/
def calculate_all_metrics (env : Env)
    (portfolios : List (String × List (String × ℚ))) : List (String × MetricsRecord) :=
  let _ := portfolios
  assets.map (fun asset => (asset, (resolveAsset env asset).1))

/-- Modelled from the spec: EnhancedHistoricalAnalyzer.force_refresh_all,
invoked by the HTTP route force_refresh in src/app.py but defined
nowhere in the repository sources. Per spec sections 4.1, 6 and 8 it
bypasses the primary-dataset and cache tiers, performs the live-fetch
attempt for every asset of the fixed set unconditionally, writes each
successfully fetched record into the cache store, and returns a
per-asset success summary. The first component is that summary, the
second the list of cache writes performed. -/
def force_refresh_all (env : Env) : List (String × Bool) × List (String × MetricsRecord) :=
  (assets.map (fun asset => (asset, (fetch_live_data env asset).isSome)),
   assets.filterMap (fun asset =>
     (fetch_live_data env asset).map (fun record => (asset, record))))

/-- Completeness of a record: none of its formatted fields renders as
the missing-value sentinel N/A. -/
def completeRecord (r : MetricsRecord) : Bool :=
  !r.historical_returns.one_month.isNA && !r.historical_returns.three_months.isNA &&
  !r.historical_returns.six_months.isNA && !r.historical_returns.one_year.isNA &&
  !r.historical_returns.five_years_avg.isNA && !r.historical_returns.ten_years_avg.isNA &&
  !r.risk_metrics.volatility.isNA && !r.risk_metrics.max_drawdown.isNA &&
  !r.risk_metrics.sharpe_ratio.isNA && !r.risk_metrics.var_95.isNA &&
  !r.current_stats.avg_annual_return.isNA

theorem safe_return_calc_ne_NA (prices : List ℚ) (days : ℕ) (fallback : String)
    (h : fallback ≠ "N/A") : (safe_return_calc prices days fallback).isNA = false := by
  unfold safe_return_calc
  repeat' split
  all_goals simp [FmtStr.isNA, h]
  all_goals (try split_ifs)
  all_goals simp [h]

theorem safe_volatility_calc_ne_NA (prices : List ℚ) (fallback : String)
    (h : fallback ≠ "N/A") : (safe_volatility_calc prices fallback).isNA = false := by
  unfold safe_volatility_calc
  repeat' split
  all_goals simp [FmtStr.isNA, h]
  all_goals (try split_ifs)
  all_goals simp [h]

theorem safe_drawdown_calc_ne_NA (prices : List ℚ) (fallback : String)
    (h : fallback ≠ "N/A") : (safe_drawdown_calc prices fallback).isNA = false := by
  unfold safe_drawdown_calc
  repeat' split
  all_goals simp [FmtStr.isNA, h]

theorem safe_sharpe_calc_ne_NA (prices : List ℚ) (fallback : String) (rfr : ℚ)
    (h : fallback ≠ "N/A") : (safe_sharpe_calc prices fallback rfr).isNA = false := by
  unfold safe_sharpe_calc
  repeat' split
  all_goals simp [FmtStr.isNA, h]
  all_goals (try split_ifs)
  all_goals simp [h]

theorem safe_var_calc_ne_NA (prices : List ℚ) (fallback : String)
    (h : fallback ≠ "N/A") : (safe_var_calc prices fallback).isNA = false := by
  unfold safe_var_calc
  repeat' split
  all_goals simp [FmtStr.isNA, h]
  all_goals (try split_ifs)
  all_goals simp [h]

theorem completeRecord_defaults (nowIso asset : String) :
    completeRecord (generate_complete_default_metrics nowIso asset) = true := by
  unfold generate_complete_default_metrics asset_defaults completeRecord
  repeat' split
  all_goals simp [FmtStr.isNA]

theorem completeRecord_calc (nowIso : String) (prices : List ℚ) (asset src : String) :
    completeRecord (calculate_complete_metrics_from_prices nowIso prices asset src) = true := by
  unfold calculate_complete_metrics_from_prices
  split
  · exact completeRecord_defaults nowIso asset
  · have h1m := safe_return_calc_ne_NA prices 21 "1.5%" (by decide)
    have h3m := safe_return_calc_ne_NA prices 63 "4.2%" (by decide)
    have h6m := safe_return_calc_ne_NA prices 126 "8.5%" (by decide)
    have h1y := safe_return_calc_ne_NA prices 252 "12.0%" (by decide)
    have h5y := safe_return_calc_ne_NA prices (252 * 5) "10.0%" (by decide)
    have h10y := safe_return_calc_ne_NA prices (252 * 10) "9.0%" (by decide)
    have hv := safe_volatility_calc_ne_NA prices "18.0%" (by decide)
    have hd := safe_drawdown_calc_ne_NA prices "-22.0%" (by decide)
    have hs := safe_sharpe_calc_ne_NA prices "0.85" 0.06 (by decide)
    have hvar := safe_var_calc_ne_NA prices "-2.3%" (by decide)
    unfold completeRecord
    simp [h1m, h3m, h6m, h1y, h5y, h10y, hv, hd, hs, hvar]

theorem ensure_data_source_complete (d : MetricsRecord) (s : String) :
    completeRecord (ensure_data_source d s) = completeRecord d := by
  unfold ensure_data_source
  split <;> rfl

theorem ensure_data_source_current_price (d : MetricsRecord) (s : String) :
    (ensure_data_source d s).current_price = d.current_price := by
  unfold ensure_data_source
  split <;> rfl

/-- C6: for every horizon and every price series with at least
max(horizon + 1, 30) points, the computed return uses the price that
many points before the last point and the last price; for horizons up
to 252 trading days it is the raw period return end/start - 1, and
beyond it is the annualized return, carried by annPct as the pair of
the total return end/start - 1 and years = horizon/252, denoting
((1 + total) ** (1/years) - 1) = ((end/start) ** (1/years) - 1); both
renderings are one-decimal percentage strings by the denotation of
retPct and annPct. -/
theorem return_calc_long_horizon (prices : List ℚ) (days : ℕ) (fallback : String)
    (h : max (days + 1) 30 ≤ prices.length) :
    (days ≤ 252 → safe_return_calc prices days fallback
        = FmtStr.retPct
            (prices.getLastD 0 / prices.getD (prices.length - 1 - days) 0 - 1)) ∧
    (252 < days → safe_return_calc prices days fallback
        = FmtStr.annPct
            (prices.getLastD 0 / prices.getD (prices.length - 1 - days) 0 - 1)
            ((days : ℚ) / 252)) := by
  unfold safe_return_calc
  rw [if_neg (by omega)]
  constructor
  · intro hd
    rw [if_pos hd]
  · intro hd
    rw [if_neg (by omega)]

/-- Concrete 30-point series for the C6 witness: the price 21 points
before the last one is 4, the last is 6. -/
def wPrices30 : List ℚ :=
  [2, 1, 1, 1, 1, 1, 1, 1, 4, 1, 1, 1, 1, 1, 1, 1, 1, 1, 1, 1, 1, 1, 1, 1, 1, 1, 1, 1, 1, 6]

/-- Witness for C6 at the one-month horizon on a 30-point series. -/
theorem return_calc_long_horizon_witness :
    safe_return_calc wPrices30 21 "1.5%" = FmtStr.retPct (6 / 4 - 1) := by
  have h := (return_calc_long_horizon wPrices30 21 "1.5%" (by decide)).1 (by decide)
  rw [h]
  norm_num [wPrices30, List.getLastD, List.getD]

/-- C8: for every horizon and every series with at least 10 but fewer
than max(horizon + 1, 30) points, the extrapolated return is the total
return over the available span divided by the number of available daily
steps, multiplied by the horizon, dampened by min(1, 30/horizon) when
the horizon exceeds 30 days, and the final estimate is clamped within
the interval from -80 percent to +200 percent. -/
theorem return_calc_extrapolation (prices : List ℚ) (days : ℕ) (fallback : String)
    (h10 : 10 ≤ prices.length) (hshort : prices.length < max (days + 1) 30) :
    ∃ e, safe_return_calc prices days fallback = FmtStr.retPct e ∧
      e = max (-(80 / 100)) (min 2 ((prices.getLastD 0 / prices.headD 0 - 1)
            / ((prices.length - 1 : ℕ) : ℚ) * (days : ℚ)
            * (if 30 < days then min 1 (30 / (days : ℚ)) else 1))) ∧
      -(80 / 100) ≤ e ∧ e ≤ 2 := by
  refine ⟨_, ?_, rfl, le_max_left _ _, max_le (by norm_num) (min_le_left _ _)⟩
  unfold safe_return_calc
  rw [if_pos hshort, if_pos h10, if_pos (by omega)]

/-- Concrete 15-point series with a +50 percent total move for the C8
witness. -/
def wPrices15 : List ℚ :=
  [100, 101, 102, 103, 104, 105, 106, 107, 108, 109, 110, 120, 130, 140, 150]

/-- Witness for C8: a 15-point +50 percent series at the 10-year
horizon of 2520 trading days gives the dampened estimate 15/14, inside
the clamp interval. -/
theorem return_calc_extrapolation_witness :
    safe_return_calc wPrices15 2520 "9.0%" = FmtStr.retPct (15 / 14) ∧
    -(80 / 100) ≤ (15 / 14 : ℚ) ∧ (15 / 14 : ℚ) ≤ 2 := by
  obtain ⟨e, h1, h2, h3, h4⟩ :=
    return_calc_extrapolation wPrices15 2520 "9.0%" (by decide) (by decide)
  have he : e = 15 / 14 := by
    rw [h2]
    norm_num [wPrices15, List.getLastD]
  exact ⟨by rw [h1, he], by norm_num, by norm_num⟩

/-- C9: the portfolios argument is ignored entirely; for every two
argument values the results coincide, and the result always carries
exactly the four hard-coded assets, in order. -/
theorem portfolios_argument_ignored (env : Env)
    (p1 p2 : List (String × List (String × ℚ))) :
    calculate_all_metrics env p1 = calculate_all_metrics env p2 ∧
    (calculate_all_metrics env p1).map Prod.fst
      = ["Equities", "Gold", "Bitcoin", "REITs"] := by
  constructor
  · rfl
  · simp [calculate_all_metrics, assets]

/-- C10: in every record computed from a price series (primary-dataset
and live-fetch tiers both go through this calculation) and in every
defaults record, avg_annual_return equals the five-year entry of
historical_returns, because the safe return calculation never renders
the sentinel N/A for a non-sentinel fallback, leaving the documented
else branches unreachable. -/
theorem avg_annual_return_five_years (nowIso asset src fallback : String)
    (prices : List ℚ) (days : ℕ) (hfb : fallback ≠ "N/A") :
    ((calculate_complete_metrics_from_prices nowIso prices asset
          src).current_stats.avg_annual_return
        = (calculate_complete_metrics_from_prices nowIso prices asset
            src).historical_returns.five_years_avg) ∧
    ((generate_complete_default_metrics nowIso asset).current_stats.avg_annual_return
        = (generate_complete_default_metrics nowIso asset).historical_returns.five_years_avg) ∧
    (safe_return_calc prices days fallback).isNA = false := by
  refine ⟨?_, rfl, safe_return_calc_ne_NA prices days fallback hfb⟩
  unfold calculate_complete_metrics_from_prices
  split
  · rfl
  · have h5 := safe_return_calc_ne_NA prices (252 * 5) "10.0%" (by decide)
    simp [h5]

/-- Witness for C10 at a concrete asset, series and fallback. -/
theorem avg_annual_return_five_years_witness :
    ((generate_complete_default_metrics "t" "Gold").current_stats.avg_annual_return
        = (generate_complete_default_metrics "t" "Gold").historical_returns.five_years_avg) ∧
    (safe_return_calc [] 21 "1.5%").isNA = false :=
  ⟨(avg_annual_return_five_years "t" "Gold" "csv_primary" "1.5%" [] 21 (by decide)).2.1,
   (avg_annual_return_five_years "t" "Gold" "csv_primary" "1.5%" [] 21 (by decide)).2.2⟩

/-- C7 (amended): with at least 30 price points and at least 20 return
points the reported volatility is the sample standard deviation (the
pandas default with the Bessel correction, divisor n - 1) of the daily
percentage returns annualized by the square root of 252, as a
one-decimal percentage string by the denotation of stdPct; below the
thresholds the fixed fallback string is returned instead. -/
theorem volatility_sample_std (prices : List ℚ) (fallback : String) :
    (30 ≤ prices.length → 20 ≤ (pctChange prices).length →
      safe_volatility_calc prices fallback = FmtStr.stdPct (sampleVar (pctChange prices))) ∧
    (prices.length < 30 → safe_volatility_calc prices fallback = FmtStr.lit fallback) := by
  constructor
  · intro h30 h20
    unfold safe_volatility_calc
    rw [if_neg (by omega), if_neg (by omega)]
  · intro h
    unfold safe_volatility_calc
    rw [if_pos h]

/-- Concrete 31-point alternating series whose 30 daily returns are 15
values of 1 and 15 values of -1/2: the sample variance is 135/232 but
the population variance is 9/16, so the two volatility readings differ
decisively (about 1210.9 percent against 1190.6 percent once rendered). -/
def volPrices31 : List ℚ :=
  [1, 2, 1, 2, 1, 2, 1, 2, 1, 2, 1, 2, 1, 2, 1, 2, 1, 2, 1, 2, 1, 2, 1, 2, 1, 2, 1, 2, 1, 2, 1]

/-- Counterexample for C7 as stated: on volPrices31 the source
volatility differs from the population-standard-deviation volatility
worded by the spec. -/
theorem volatility_population_std_counterexample :
    safe_volatility_calc volPrices31 "18.0%" ≠ volatility_spec volPrices31 "18.0%" := by
  have hcode : safe_volatility_calc volPrices31 "18.0%" = FmtStr.stdPct (135 / 232) := by
    norm_num [safe_volatility_calc, volPrices31, pctChange, sampleVar, listMean]
  have hspec : volatility_spec volPrices31 "18.0%" = FmtStr.stdPct (9 / 16) := by
    norm_num [volatility_spec, volPrices31, pctChange, popVar, listMean]
  rw [hcode, hspec]
  intro hcontra
  rw [FmtStr.stdPct.injEq] at hcontra
  norm_num at hcontra

/-- Witness for the amended C7: the main equation on volPrices31 with
the concrete sample variance, and the fallback branch on a one-point
series. -/
theorem volatility_sample_std_witness :
    safe_volatility_calc volPrices31 "18.0%" = FmtStr.stdPct (135 / 232) ∧
    safe_volatility_calc [1] "18.0%" = FmtStr.lit "18.0%" := by
  constructor
  · rw [(volatility_sample_std volPrices31 "18.0%").1 (by decide) (by decide)]
    norm_num [volPrices31, pctChange, sampleVar, listMean]
  · exact (volatility_sample_std [1] "18.0%").2 (by decide)

theorem get_csv_data_complete (env : Env) (a : String) (d : MetricsRecord)
    (h : get_csv_data env a = some d) : completeRecord d = true := by
  cases hc : env.csv a with
  | none =>
      simp only [get_csv_data, hc] at h
      exact Option.noConfusion h
  | some prices =>
      simp only [get_csv_data, hc] at h
      split at h
      · cases h
      · cases h
        exact completeRecord_calc env.nowIso prices a "csv_primary"

theorem fetch_live_data_complete (env : Env) (a : String) (d : MetricsRecord)
    (h : fetch_live_data env a = some d) : completeRecord d = true := by
  cases hs : symbol_map a with
  | none =>
      simp only [fetch_live_data, hs] at h
      exact Option.noConfusion h
  | some sym =>
      cases hl : env.live a with
      | none =>
          simp only [fetch_live_data, hs, hl] at h
          exact Option.noConfusion h
      | some prices =>
          simp only [fetch_live_data, hs, hl] at h
          cases h
          exact completeRecord_calc env.nowIso prices a "live_yfinance_last_resort"

theorem resolve_live_complete (env : Env) (a : String) :
    completeRecord (resolve_live env a).1 = true := by
  cases hf : fetch_live_data env a with
  | none =>
      simp only [resolve_live, hf]
      exact completeRecord_defaults env.nowIso a
  | some d =>
      simp only [resolve_live, hf]
      rw [ensure_data_source_complete]
      exact fetch_live_data_complete env a d hf

theorem resolveAsset_complete (env : Env) (a : String)
    (hcache : ∀ c, env.cached a = some c → completeRecord c = true) :
    completeRecord (resolveAsset env a).1 = true := by
  cases hcsv : get_csv_data env a with
  | some d =>
      simp only [resolveAsset, hcsv]
      exact get_csv_data_complete env a d hcsv
  | none =>
      cases hc : env.cached a with
      | none =>
          simp only [resolveAsset, hcsv, hc]
          exact resolve_live_complete env a
      | some c =>
          simp only [resolveAsset, hcsv, hc]
          split
          · rw [ensure_data_source_complete]
            exact hcache c hc
          · exact resolve_live_complete env a

/-- C1: for every environment whose persisted cache entries are
complete records (the only writer is the live tier, which persists
complete records), calculate_all_metrics yields exactly one record per
asset of the fixed four-asset set, every record is free of the
missing-value sentinel in historical_returns, risk_metrics and
current_stats, and when the primary-dataset, cache and live tiers all
fail for an asset the result is the always-available defaults record.
The embedded resolver is a total function: every exceptional path of
the source is a caught branch modelled by a None, so no exception
reaches the caller. -/
theorem resolver_total_and_complete (env : Env)
    (portfolios : List (String × List (String × ℚ)))
    (hcache : ∀ a c, env.cached a = some c → completeRecord c = true) :
    (calculate_all_metrics env portfolios).map Prod.fst = assets ∧
    (∀ a r, (a, r) ∈ calculate_all_metrics env portfolios → completeRecord r = true) ∧
    (∀ a, get_csv_data env a = none →
      (∀ c, env.cached a = some c → is_data_fresh env c 24 = false) →
      fetch_live_data env a = none →
      (resolveAsset env a).1 = generate_complete_default_metrics env.nowIso a) := by
  refine ⟨by simp [calculate_all_metrics, assets], ?_, ?_⟩
  · intro a r hmem
    simp only [calculate_all_metrics, List.mem_map] at hmem
    obtain ⟨x, hx, hxr⟩ := hmem
    have hr : r = (resolveAsset env x).1 := (Prod.ext_iff.mp hxr).2.symm
    rw [hr]
    exact resolveAsset_complete env x (fun c hc => hcache x c hc)
  · intro a hcsv hstale hlive
    cases hc : env.cached a with
    | none =>
        simp only [resolveAsset, hcsv, hc, resolve_live, hlive]
    | some c =>
        simp only [resolveAsset, hcsv, hc, hstale c hc, Bool.false_eq_true, if_false,
          resolve_live, hlive]

/-- Environment in which every tier fails: no CSV, no cache, no live
data. -/
def envEmpty : Env :=
  ⟨fun _ => none, fun _ => none, fun _ => none, "2026-01-01T00:00:00", 0, fun _ => none⟩

/-- Witness for C1: with every tier failing, the resolver still yields
the four assets in order and the Gold record is the defaults record. -/
theorem resolver_total_and_complete_witness :
    (calculate_all_metrics envEmpty []).map Prod.fst = assets ∧
    (resolveAsset envEmpty "Gold").1
      = generate_complete_default_metrics "2026-01-01T00:00:00" "Gold" := by
  have h := resolver_total_and_complete envEmpty []
    (by intro a c hc; simp [envEmpty] at hc)
  refine ⟨h.1, ?_⟩
  exact h.2.2 "Gold" (by simp [get_csv_data, envEmpty])
    (by intro c hc; simp [envEmpty] at hc)
    (by simp [fetch_live_data, symbol_map, envEmpty])

/-- C2: when the primary dataset holds a non-empty price series for an
asset of the fixed set, the resolved record is the one computed from
that series and carries the primary-dataset tag csv_primary, never the
cache tag — even when a fresh cache entry exists at the same time, as
the hypotheses here require. -/
theorem csv_priority_over_cache (env : Env)
    (portfolios : List (String × List (String × ℚ))) (a : String)
    (prices : List ℚ) (c : MetricsRecord)
    (ha : a ∈ assets) (hcsv : env.csv a = some prices) (hne : prices ≠ [])
    (hc : env.cached a = some c) (hfresh : is_data_fresh env c 24 = true) :
    (a, calculate_complete_metrics_from_prices env.nowIso prices a "csv_primary")
        ∈ calculate_all_metrics env portfolios ∧
    (resolveAsset env a).1.data_source = some "csv_primary" ∧
    (resolveAsset env a).1.data_source ≠ some "cached_data" := by
  have hlen : ¬prices.length = 0 := by
    simpa using hne
  have hget : get_csv_data env a
      = some (calculate_complete_metrics_from_prices env.nowIso prices a "csv_primary") := by
    simp only [get_csv_data, hcsv]
    rw [if_neg hlen]
  have hres : (resolveAsset env a).1
      = calculate_complete_metrics_from_prices env.nowIso prices a "csv_primary" := by
    simp only [resolveAsset, hget]
  have hds : (calculate_complete_metrics_from_prices env.nowIso prices a
      "csv_primary").data_source = some "csv_primary" := by
    unfold calculate_complete_metrics_from_prices
    rw [if_neg hlen]
  refine ⟨?_, by rw [hres, hds], by rw [hres, hds]; simp⟩
  rw [← hres]
  simp only [calculate_all_metrics]
  exact List.mem_map.mpr ⟨a, ha, rfl⟩

/-- Fresh cache record for Gold used by the C2 witness environment. -/
def cacheGold : MetricsRecord :=
  { asset_name := "Gold"
    current_price := 100
    last_update := some "2026-01-01T05:00:00"
    data_source := some "cached_data"
    historical_returns :=
      ⟨.lit "1.0%", .lit "1.0%", .lit "1.0%", .lit "1.0%", .lit "1.0%", .lit "1.0%"⟩
    risk_metrics := ⟨.lit "1.0%", .lit "-1.0%", .lit "1.00", .lit "-1.0%"⟩
    current_stats := ⟨100, 100, 100, .lit "1.0%"⟩
    data_quality := none }

/-- Environment for the C2 witness: Gold has both a non-empty CSV
series and a fresh cache entry. -/
def envCsvAndCache : Env :=
  ⟨fun a => if a = "Gold" then some wPrices30 else none,
   fun a => if a = "Gold" then some cacheGold else none,
   fun _ => none,
   "2026-01-02T00:00:00",
   3600,
   fun s => if s = stripTimestampSuffix "2026-01-01T05:00:00" then some 0 else none⟩

theorem envCsvAndCache_fresh : is_data_fresh envCsvAndCache cacheGold 24 = true := by
  simp only [is_data_fresh, cacheGold, envCsvAndCache, if_pos rfl]
  norm_num

/-- Witness for C2: in envCsvAndCache the Gold record comes from the
CSV series and is tagged csv_primary despite the fresh cache entry. -/
theorem csv_priority_over_cache_witness :
    ("Gold", calculate_complete_metrics_from_prices "2026-01-02T00:00:00" wPrices30 "Gold"
        "csv_primary") ∈ calculate_all_metrics envCsvAndCache [] ∧
    (resolveAsset envCsvAndCache "Gold").1.data_source = some "csv_primary" := by
  have h := csv_priority_over_cache envCsvAndCache [] "Gold" wPrices30 cacheGold
    (by decide) (by simp [envCsvAndCache]) (by decide)
    (by simp [envCsvAndCache]) envCsvAndCache_fresh
  exact ⟨h.1, h.2.1⟩

/-- C5: the freshness gate accepts a cache entry exactly when its
last_update field is present, parses after the timestamp normalization
(every Z removed, anything from the first plus sign on dropped), and
lies strictly less than 24 hours before now; a missing or unparseable
last_update is stale. -/
theorem freshness_gate (env : Env) (d : MetricsRecord) :
    is_data_fresh env d 24 = true ↔
      ∃ s t, d.last_update = some s ∧
        env.parseIso (stripTimestampSuffix s) = some t ∧
        env.nowSec - t < 24 * 3600 := by
  cases hd : d.last_update with
  | none => simp [is_data_fresh, hd]
  | some s =>
      cases hp : env.parseIso (stripTimestampSuffix s) with
      | none => simp [is_data_fresh, hd, hp]
      | some t => simp [is_data_fresh, hd, hp]

/-- C4 (amended): when an asset is resolved from the cache tier (no
usable primary-dataset data, cache entry present and fresh), the
returned record preserves the stored fields (current_price identical);
the cache tag cached_data is backfilled only when the stored entry
lacked a data_source field, while an existing data_source value — such
as the live-fetch tag written when the entry was cached — is preserved
unchanged. -/
theorem cache_tier_preserves_record (env : Env) (a : String) (c : MetricsRecord)
    (hcsv : get_csv_data env a = none) (hc : env.cached a = some c)
    (hfresh : is_data_fresh env c 24 = true) :
    (resolveAsset env a).1 = ensure_data_source c "cached_data" ∧
    (resolveAsset env a).1.current_price = c.current_price ∧
    (c.data_source = none → (resolveAsset env a).1.data_source = some "cached_data") ∧
    (∀ s, c.data_source = some s → (resolveAsset env a).1.data_source = some s) := by
  have hres : (resolveAsset env a).1 = ensure_data_source c "cached_data" := by
    simp only [resolveAsset, hcsv, hc, hfresh, if_true]
  refine ⟨hres, by rw [hres, ensure_data_source_current_price], ?_, ?_⟩
  · intro hds
    rw [hres]
    simp [ensure_data_source, hds]
  · intro s hds
    rw [hres]
    simp [ensure_data_source, hds]

/-- Cache record for Bitcoin carrying the live-fetch tag it was
persisted with, as the source itself writes it back after a live fetch;
current_price matches the scenario value of the spec. -/
def cachedBitcoin : MetricsRecord :=
  { asset_name := "Bitcoin"
    current_price := 112318.35
    last_update := some "2026-01-01T22:00:00"
    data_source := some "live_yfinance_last_resort"
    historical_returns :=
      ⟨.lit "1.0%", .lit "2.0%", .lit "3.0%", .lit "4.0%", .lit "5.0%", .lit "6.0%"⟩
    risk_metrics := ⟨.lit "65.0%", .lit "-75.0%", .lit "0.85", .lit "-4.8%"⟩
    current_stats := ⟨112318.35, 111000, 110000, .lit "5.0%"⟩
    data_quality := none }

/-- Cache record for Gold lacking the data_source field, exercising the
backfill branch. -/
def cachedGoldNoTag : MetricsRecord :=
  { asset_name := "Gold"
    current_price := 65000
    last_update := some "2026-01-01T22:00:00"
    data_source := none
    historical_returns :=
      ⟨.lit "1.0%", .lit "2.0%", .lit "3.0%", .lit "4.0%", .lit "5.0%", .lit "6.0%"⟩
    risk_metrics := ⟨.lit "15.0%", .lit "-18.0%", .lit "1.05", .lit "-1.8%"⟩
    current_stats := ⟨65000, 65000, 65000, .lit "5.0%"⟩
    data_quality := none }

/-- Environment with no CSV, no live data, and fresh cache entries for
Bitcoin (tagged) and Gold (untagged), two hours old. -/
def envCachedOnly : Env :=
  ⟨fun _ => none,
   fun a => if a = "Bitcoin" then some cachedBitcoin
     else if a = "Gold" then some cachedGoldNoTag else none,
   fun _ => none,
   "2026-01-02T00:00:00",
   7200,
   fun s => if s = stripTimestampSuffix "2026-01-01T22:00:00" then some 0 else none⟩

theorem envCachedOnly_fresh_bitcoin : is_data_fresh envCachedOnly cachedBitcoin 24 = true := by
  simp only [is_data_fresh, cachedBitcoin, envCachedOnly, if_pos rfl]
  norm_num

theorem envCachedOnly_fresh_gold : is_data_fresh envCachedOnly cachedGoldNoTag 24 = true := by
  simp only [is_data_fresh, cachedGoldNoTag, envCachedOnly, if_pos rfl]
  norm_num

/-- Counterexample for C4 as stated: Bitcoin resolves from the cache
tier (the stored current_price 112318.35 is preserved, no other tier
has data), yet its data_source is the stored live-fetch tag, not the
cache tag cached_data. -/
theorem cache_tag_counterexample :
    (resolveAsset envCachedOnly "Bitcoin").1.current_price = 112318.35 ∧
    (resolveAsset envCachedOnly "Bitcoin").1.data_source = some "live_yfinance_last_resort" ∧
    (resolveAsset envCachedOnly "Bitcoin").1.data_source ≠ some "cached_data" := by
  have hres : (resolveAsset envCachedOnly "Bitcoin").1 = cachedBitcoin := by
    have hcsv : get_csv_data envCachedOnly "Bitcoin" = none := by
      simp [get_csv_data, envCachedOnly]
    have hc : envCachedOnly.cached "Bitcoin" = some cachedBitcoin := by
      simp [envCachedOnly]
    simp only [resolveAsset, hcsv, hc, envCachedOnly_fresh_bitcoin, if_true]
    simp [ensure_data_source, cachedBitcoin]
  rw [hres]
  refine ⟨rfl, rfl, by simp [cachedBitcoin]⟩

/-- Witness for the amended C4, exercising both data_source branches:
the tagged Bitcoin entry keeps its stored tag, the untagged Gold entry
gets the cache tag backfilled; current_price is preserved for both. -/
theorem cache_tier_preserves_record_witness :
    (resolveAsset envCachedOnly "Bitcoin").1.current_price = cachedBitcoin.current_price ∧
    (resolveAsset envCachedOnly "Bitcoin").1.data_source = some "live_yfinance_last_resort" ∧
    (resolveAsset envCachedOnly "Gold").1.data_source = some "cached_data" := by
  have hb := cache_tier_preserves_record envCachedOnly "Bitcoin" cachedBitcoin
    (by simp [get_csv_data, envCachedOnly]) (by simp [envCachedOnly])
    envCachedOnly_fresh_bitcoin
  have hg := cache_tier_preserves_record envCachedOnly "Gold" cachedGoldNoTag
    (by simp [get_csv_data, envCachedOnly]) (by simp [envCachedOnly])
    envCachedOnly_fresh_gold
  exact ⟨hb.2.1, hb.2.2.2 "live_yfinance_last_resort" rfl, hg.2.2.1 rfl⟩

/-- C3 (modelled from the spec, the method being absent from the
sources): force_refresh_all ignores the primary-dataset and cache
tiers entirely — replacing them changes nothing — performs the
live-fetch attempt for every asset of the fixed set unconditionally,
and records a cache write for every successful fetch. -/
theorem force_refresh_bypasses_tiers (env : Env)
    (csvF : String → Option (List ℚ)) (cachedF : String → Option MetricsRecord) :
    force_refresh_all (Env.mk csvF cachedF env.live env.nowIso env.nowSec env.parseIso)
        = force_refresh_all env ∧
    (force_refresh_all env).1
        = assets.map (fun a => (a, (fetch_live_data env a).isSome)) ∧
    (∀ a r, a ∈ assets → fetch_live_data env a = some r →
      (a, r) ∈ (force_refresh_all env).2) := by
  refine ⟨rfl, rfl, ?_⟩
  intro a r ha hr
  simp only [force_refresh_all, List.mem_filterMap]
  exact ⟨a, ha, by rw [hr]; rfl⟩

/-- Environment for the C3 witness: only the live tier has data, for
Gold. -/
def envLive : Env :=
  ⟨fun _ => none, fun _ => none,
   fun a => if a = "Gold" then some wPrices30 else none,
   "2026-01-02T00:00:00", 0, fun _ => none⟩

/-- Witness for C3: the successful Gold fetch appears among the cache
writes of force_refresh_all. -/
theorem force_refresh_bypasses_tiers_witness :
    ("Gold", calculate_complete_metrics_from_prices "2026-01-02T00:00:00" wPrices30 "Gold"
        "live_yfinance_last_resort") ∈ (force_refresh_all envLive).2 := by
  refine (force_refresh_bypasses_tiers envLive (fun _ => none)
    (fun _ => none)).2.2 "Gold" _ (by decide) ?_
  simp [fetch_live_data, symbol_map, envLive]
